import Mathlib

/-!
Shallow embedding of `packages/core/strapi/lib/commands/actions/import/action.js`:
the Strapi CLI import command. The command wires a local-file source provider and
a local Strapi destination provider into the transfer engine, registers default
filter rules and a schema-diff confirmation handler, and runs the transfer.
JavaScript option values that may be `undefined` are modelled as `Option`;
JS truthiness of strings (`s || d`) and of booleans (`!!b`) is made explicit.
-/

/-- Modelled from the spec: `DEFAULT_IGNORED_CONTENT_TYPES`, imported by the
command from `../../utils/data-transfer` (that module is not under `src/`).
The spec describes it as a fixed list of internal/system content types that
is excluded regardless of user configuration; the representative members below
stand for that fixed list, and no theorem depends on the particular members. -/
def DEFAULT_IGNORED_CONTENT_TYPES : List String :=
  [ "admin::permission"
  , "admin::user"
  , "admin::role"
  , "admin::api-token"
  , "admin::api-token-permission"
  , "admin::transfer-token"
  , "admin::transfer-token-permission"
  , "admin::audit-log" ]

/-- Modelled from the spec: `DEFAULT_VERSION_STRATEGY` exported by
`@strapi/data-transfer` (not under `src/`); the spec enumerates
versionStrategy ∈ \x7bexact, ignore\x7d. Theorems depend only on the value
being a fixed non-empty string. -/
def DEFAULT_VERSION_STRATEGY : String := "ignore"

/-- Modelled from the spec: `DEFAULT_SCHEMA_STRATEGY` exported by
`@strapi/data-transfer` (not under `src/`); the spec enumerates
schemaStrategy ∈ \x7bstrict, permissive\x7d. -/
def DEFAULT_SCHEMA_STRATEGY : String := "strict"

/-- Modelled from the spec: `DEFAULT_CONFLICT_STRATEGY` exported by
`@strapi/data-transfer` (not under `src/`); the spec enumerates
conflictStrategy ∈ \x7brestore, merge, bail\x7d. -/
def DEFAULT_CONFLICT_STRATEGY : String := "restore"

/-- JavaScript `a || b` for a possibly-undefined string `a`: `undefined` and
the empty string are falsy, every other string is truthy. -/
def jsOrElse (value : Option String) (fallback : String) : String :=
  match value with
  | some s => if s = "" then fallback else s
  | none => fallback

/-- JavaScript `!!b` for a possibly-undefined boolean `b`: `undefined` is
falsy, otherwise the boolean itself. -/
def jsTruthyBool (value : Option Bool) : Bool :=
  match value with
  | some b => b
  | none => false

/-- Options given to the CLI import command (`ImportCommandOptions` plus the
strategy and file-handling flags the action reads). Absent fields are `none`. -/
structure ImportOpts where
  file : Option String := none
  key : Option String := none
  decompress : Option Bool := none
  decrypt : Option Bool := none
  force : Option Bool := none
  conflictStrategy : Option String := none
  versionStrategy : Option String := none
  schemaStrategy : Option String := none
  only : Option (List String) := none
  exclude : Option (List String) := none
  throttle : Option Nat := none
  deriving DecidableEq, Repr

/-- An entity crossing the transfer boundary: `\x7b type, id, attributes \x7d`. -/
structure Entity where
  type : String
  id : Nat
  attributes : List (String × String) := []
  deriving DecidableEq, Repr

/-- One endpoint of a relation edge: `\x7b type, id \x7d`. -/
structure LinkEnd where
  type : String
  id : Nat
  deriving DecidableEq, Repr

/-- A relation edge between two entities: `\x7b left, right, kind \x7d`. -/
structure Link where
  left : LinkEnd
  right : LinkEnd
  kind : String := ""
  deriving DecidableEq, Repr

/-- The link filter registered in `engineOptions.rules.links` (action.js
lines 92-97): a link passes iff neither endpoint type is in
`DEFAULT_IGNORED_CONTENT_TYPES`. -/
def linksFilter (link : Link) : Bool :=
  !(DEFAULT_IGNORED_CONTENT_TYPES.contains link.left.type) &&
  !(DEFAULT_IGNORED_CONTENT_TYPES.contains link.right.type)

/-- The entity filter registered in `engineOptions.rules.entities` (action.js
line 102): an entity passes iff its type is not in
`DEFAULT_IGNORED_CONTENT_TYPES`. -/
def entitiesFilter (entity : Entity) : Bool :=
  !(DEFAULT_IGNORED_CONTENT_TYPES.contains entity.type)

/-- The `restore.entities` configuration of the destination provider. -/
structure RestoreEntitiesConfig where
  exclude : List String
  deriving DecidableEq, Repr

/-- The `restore` configuration of the destination provider. -/
structure RestoreConfig where
  entities : RestoreEntitiesConfig
  deriving DecidableEq, Repr

/-- `destinationOptions` as built by the action (action.js lines 68-77);
`getStrapi` (a closure returning the live instance) is outside the data model. -/
structure DestinationOptions where
  autoDestroy : Bool
  strategy : String
  restore : RestoreConfig
  deriving DecidableEq, Repr

/-- Builds `destinationOptions` from the command options (action.js
lines 68-77). -/
def destinationOptions (opts : ImportOpts) : DestinationOptions :=
  { autoDestroy := false
  , strategy := jsOrElse opts.conflictStrategy DEFAULT_CONFLICT_STRATEGY
  , restore := { entities := { exclude := DEFAULT_IGNORED_CONTENT_TYPES } } }

/-- The filter rules registered in `engineOptions.rules` (action.js
lines 89-105): one link predicate and one entity predicate. -/
structure EngineRules where
  links : List (Link → Bool)
  entities : List (Entity → Bool)

/-- `engineOptions` as built by the action (action.js lines 83-106). -/
structure EngineOptions where
  versionStrategy : String
  schemaStrategy : String
  exclude : Option (List String)
  only : Option (List String)
  throttle : Option Nat
  rules : EngineRules

/-- Builds `engineOptions` from the command options (action.js lines 83-106). -/
def engineOptions (opts : ImportOpts) : EngineOptions :=
  { versionStrategy := jsOrElse opts.versionStrategy DEFAULT_VERSION_STRATEGY
  , schemaStrategy := jsOrElse opts.schemaStrategy DEFAULT_SCHEMA_STRATEGY
  , exclude := opts.exclude
  , only := opts.only
  , throttle := opts.throttle
  , rules := { links := [linksFilter], entities := [entitiesFilter] } }

/-- Kind of one schema difference: added, removed or changed. -/
inductive DiffKind where
  | added
  | removed
  | changed
  deriving DecidableEq, Repr

/-- One schema difference `\x7b path, kind, sourceValue, destValue \x7d`. -/
structure SchemaDiff where
  path : String
  kind : DiffKind
  sourceValue : String
  destValue : String
  deriving DecidableEq, Repr

/-- The context handed to the `onSchemaDiff` handler; the handler reads and
writes only its `diffs` field. -/
structure SchemaDiffContext where
  diffs : List SchemaDiff
  deriving DecidableEq, Repr

/-- The schema-diff handler registered with `engine.onSchemaDiff` (action.js
lines 116-139), in continuation-listing form: the result lists, in order, the
contexts the handler passes to `next`. `confirmed` is the outcome of the
confirmation prompt. If confirmed, the handler sets `context.diffs = []` and
returns `next(context)`; otherwise it returns `next(context)` unchanged. The
signal-handler swaps around the prompt are process-level side effects outside
this model. -/
def onSchemaDiffHandler (confirmed : Bool) (context : SchemaDiffContext) :
    List SchemaDiffContext :=
  if confirmed then
    [{ context with diffs := [] }]
  else
    [context]

/-- Modelled from the spec: the engine's strict-strategy schema stage (the
engine itself is in `@strapi/data-transfer`, not under `src/`). After the
handler runs, the pipeline proceeds past the schema stage iff the diff list
it hands back is empty; remaining diffs abort with `SchemaMismatchError`. -/
def schemaStageProceeds (context : SchemaDiffContext) : Bool :=
  context.diffs.isEmpty

/-- Observable events of the tail of the import action (action.js
lines 161-184), in emission order. -/
inductive ImportEvent where
  | telemetryFail
  | printTable
  | printTableError
  | telemetryFinish
  | destroyStrapi
  deriving DecidableEq, Repr

/-- Result of `engine.transfer()` as the action consumes it: only the
`engine` payload handed to `buildTransferTable` matters here. -/
structure TransferResults where
  engineData : String := ""
  deriving DecidableEq, Repr

/-- Tail of the import action (action.js lines 161-184) as a trace of events
plus the process exit code. `transferOutcome` is what `engine.transfer()` did:
`Except.error` models a throw, `Except.ok` a returned result. `tableOk` models
whether `buildTransferTable(results.engine)` succeeds; on its failure the
inner catch prints an error message and the action still finishes normally.
`exitWith(1, ...)` in the catch terminates the process, so nothing follows it. -/
def importRun (transferOutcome : Except Unit TransferResults) (tableOk : Bool) :
    List ImportEvent × Nat :=
  match transferOutcome with
  | .error _ => ([ImportEvent.telemetryFail], 1)
  | .ok _ =>
      let tableEvents :=
        if tableOk then [ImportEvent.printTable] else [ImportEvent.printTableError]
      (tableEvents ++ [ImportEvent.telemetryFinish, ImportEvent.destroyStrapi], 0)

/-- `file`, `compression` and `encryption` sections of the local-file source
provider options. -/
structure FileConfig where
  path : Option String
  deriving DecidableEq, Repr

/-- Compression section of the source provider options. -/
structure CompressionConfig where
  enabled : Bool
  deriving DecidableEq, Repr

/-- Encryption section of the source provider options. -/
structure EncryptionConfig where
  enabled : Bool
  key : Option String
  deriving DecidableEq, Repr

/-- `ILocalFileSourceProviderOptions` as built by the action. -/
structure LocalFileSourceOptions where
  file : FileConfig
  compression : CompressionConfig
  encryption : EncryptionConfig
  deriving DecidableEq, Repr

/-- `getLocalFileSourceOptions` (action.js lines 193-204): infers source
provider options from the command options. -/
def getLocalFileSourceOptions (opts : ImportOpts) : LocalFileSourceOptions :=
  { file := { path := opts.file }
  , compression := { enabled := jsTruthyBool opts.decompress }
  , encryption := { enabled := jsTruthyBool opts.decrypt, key := opts.key } }

/-! Theorems -/

/-- Helper: filtering a list twice with the same predicate equals filtering once. -/
theorem filter_self_idem {α : Type} (p : α → Bool) (l : List α) :
    (l.filter p).filter p = l.filter p := by
  induction l with
  | nil => rfl
  | cons a t ih => cases h : p a <;> simp [List.filter_cons, h, ih]

/-- Helper: JS boolean coercion of a possibly-undefined boolean yields `true`
exactly when the value is present and `true`. -/
theorem jsTruthyBool_eq_true_iff (o : Option Bool) :
    jsTruthyBool o = true ↔ o = some true := by
  cases o with
  | none => simp [jsTruthyBool]
  | some b => cases b <;> simp [jsTruthyBool]

/-- C1: when the schema-diff handler is invoked and the user confirms the
prompt, the handler clears the diff list (sets `context.diffs` to the empty
list) and resumes the pipeline by calling `next(context)` (exactly one
continuation call, whose context has an empty diff list). -/
theorem schemaDiffHandler_confirm_clears_and_resumes (context : SchemaDiffContext) :
    onSchemaDiffHandler true context = [⟨[]⟩] := by
  simp [onSchemaDiffHandler]

/-- C2: when the user declines the prompt, the handler hands the context to
`next` unchanged: the diff list is not cleared, and (engine schema stage
modelled from the spec) the transfer does not proceed past the schema stage
when diffs remain. -/
theorem schemaDiffHandler_decline_keeps_diffs (context : SchemaDiffContext)
    (h : context.diffs ≠ []) :
    onSchemaDiffHandler false context = [context] ∧
    ∀ c ∈ onSchemaDiffHandler false context,
      c.diffs = context.diffs ∧ schemaStageProceeds c = false := by
  refine ⟨rfl, ?_⟩
  intro c hc
  simp only [onSchemaDiffHandler, if_neg Bool.false_ne_true, List.mem_singleton] at hc
  subst hc
  refine ⟨rfl, ?_⟩
  simpa [schemaStageProceeds, List.isEmpty_iff] using h

/-- Witness for C2 at a concrete declined context with one `changed` diff. -/
theorem schemaDiffHandler_decline_keeps_diffs_witness :
    onSchemaDiffHandler false ⟨[⟨"field", DiffKind.changed, "a", "b"⟩]⟩ =
      [⟨[⟨"field", DiffKind.changed, "a", "b"⟩]⟩] ∧
    ∀ c ∈ onSchemaDiffHandler false ⟨[⟨"field", DiffKind.changed, "a", "b"⟩]⟩,
      c.diffs = [⟨"field", DiffKind.changed, "a", "b"⟩] ∧
      schemaStageProceeds c = false :=
  schemaDiffHandler_decline_keeps_diffs ⟨[⟨"field", DiffKind.changed, "a", "b"⟩]⟩
    (by simp)

/-- C3: for every prompt outcome, the handler calls `next(context)` exactly
once before returning, so the pipeline is always resumed. -/
theorem schemaDiffHandler_resumes_exactly_once (confirmed : Bool)
    (context : SchemaDiffContext) :
    (onSchemaDiffHandler confirmed context).length = 1 := by
  cases confirmed <;> simp [onSchemaDiffHandler]

/-- C4: the registered default predicates exclude exactly the fixed
ignored-content-type list: the entity predicate accepts iff the entity type
is not in `DEFAULT_IGNORED_CONTENT_TYPES`, the link predicate accepts iff
neither endpoint type is; and `engineOptions.rules` registers exactly these
two predicates. -/
theorem defaultRules_exclude_exactly_ignored_types :
    (∀ opts : ImportOpts,
        (engineOptions opts).rules.entities = [entitiesFilter] ∧
        (engineOptions opts).rules.links = [linksFilter]) ∧
    (∀ entity : Entity,
        entitiesFilter entity = true ↔
          entity.type ∉ DEFAULT_IGNORED_CONTENT_TYPES) ∧
    (∀ link : Link,
        linksFilter link = true ↔
          link.left.type ∉ DEFAULT_IGNORED_CONTENT_TYPES ∧
          link.right.type ∉ DEFAULT_IGNORED_CONTENT_TYPES) := by
  refine ⟨fun opts => ⟨rfl, rfl⟩, fun entity => ?_, fun link => ?_⟩
  · simp [entitiesFilter]
  · simp [linksFilter]

/-- C5: if the registered link predicate accepts a link then every entity
whose type is one of the link's endpoint types is accepted by the registered
entity predicate, so no surviving link references a filtered-out entity type. -/
theorem accepted_link_has_accepted_endpoint_types (link : Link) (entity : Entity)
    (hl : linksFilter link = true)
    (ht : entity.type = link.left.type ∨ entity.type = link.right.type) :
    entitiesFilter entity = true := by
  simp only [linksFilter, Bool.and_eq_true, Bool.not_eq_true'] at hl
  rcases ht with h | h <;> simp only [entitiesFilter, h, Bool.not_eq_true']
  · exact hl.1
  · exact hl.2

/-- Witness for C5 at a concrete accepted link and a matching entity. -/
theorem accepted_link_has_accepted_endpoint_types_witness :
    entitiesFilter ⟨"api::article.article", 7, []⟩ = true :=
  accepted_link_has_accepted_endpoint_types
    ⟨⟨"api::article.article", 1⟩, ⟨"api::tag.tag", 2⟩, "oneToMany"⟩
    ⟨"api::article.article", 7, []⟩ (by decide) (Or.inl rfl)

/-- C6 (amended): a strategy field left unset is replaced by its documented
default; a supplied non-empty strategy value is passed through unchanged; but
a supplied empty string is falsy under JavaScript `||` and is also replaced
by the default, not passed through. -/
theorem strategy_defaults_and_truthy_passthrough (opts : ImportOpts) :
    ((opts.versionStrategy = none →
        (engineOptions opts).versionStrategy = DEFAULT_VERSION_STRATEGY) ∧
      (∀ s : String, opts.versionStrategy = some s → s ≠ "" →
        (engineOptions opts).versionStrategy = s) ∧
      (opts.versionStrategy = some "" →
        (engineOptions opts).versionStrategy = DEFAULT_VERSION_STRATEGY)) ∧
    ((opts.schemaStrategy = none →
        (engineOptions opts).schemaStrategy = DEFAULT_SCHEMA_STRATEGY) ∧
      (∀ s : String, opts.schemaStrategy = some s → s ≠ "" →
        (engineOptions opts).schemaStrategy = s) ∧
      (opts.schemaStrategy = some "" →
        (engineOptions opts).schemaStrategy = DEFAULT_SCHEMA_STRATEGY)) ∧
    ((opts.conflictStrategy = none →
        (destinationOptions opts).strategy = DEFAULT_CONFLICT_STRATEGY) ∧
      (∀ s : String, opts.conflictStrategy = some s → s ≠ "" →
        (destinationOptions opts).strategy = s) ∧
      (opts.conflictStrategy = some "" →
        (destinationOptions opts).strategy = DEFAULT_CONFLICT_STRATEGY)) := by
  refine ⟨⟨fun h => ?_, fun s hs hne => ?_, fun h => ?_⟩,
    ⟨fun h => ?_, fun s hs hne => ?_, fun h => ?_⟩,
    ⟨fun h => ?_, fun s hs hne => ?_, fun h => ?_⟩⟩ <;>
      simp_all [engineOptions, destinationOptions, jsOrElse]

/-- Witness for C6 (amended): defaults are substituted for unset fields and a
non-empty supplied value passes through, at concrete options. -/
theorem strategy_defaults_witness :
    (engineOptions ({} : ImportOpts)).versionStrategy = DEFAULT_VERSION_STRATEGY ∧
    (engineOptions ({ versionStrategy := some "exact" } : ImportOpts)).versionStrategy
      = "exact" ∧
    (destinationOptions ({} : ImportOpts)).strategy = DEFAULT_CONFLICT_STRATEGY :=
  ⟨(strategy_defaults_and_truthy_passthrough {}).1.1 rfl,
    (strategy_defaults_and_truthy_passthrough _).1.2.1 "exact" rfl (by decide),
    (strategy_defaults_and_truthy_passthrough {}).2.2.1 rfl⟩

/-- Counterexample to C6 as stated: supplying the empty string as
versionStrategy does not pass it through — JavaScript `||` treats it as
falsy and substitutes the default. -/
theorem strategy_empty_string_not_passed_through :
    (engineOptions ({ versionStrategy := some "" } : ImportOpts)).versionStrategy
      ≠ "" := by
  simp [engineOptions, jsOrElse, DEFAULT_VERSION_STRATEGY]

/-- C7: for every options object, the destination provider is configured with
`restore.entities.exclude` equal to `DEFAULT_IGNORED_CONTENT_TYPES`; no user
option can change this. -/
theorem destination_exclude_is_fixed (opts : ImportOpts) :
    (destinationOptions opts).restore.entities.exclude
      = DEFAULT_IGNORED_CONTENT_TYPES := rfl

/-- C8: the registered predicates are pure functions, so filtering is
idempotent: filtering an already-filtered entity or link list with the same
registered predicate changes nothing, and every accepted item is accepted
again on re-application. -/
theorem registered_filters_idempotent (es : List Entity) (ls : List Link) :
    (es.filter entitiesFilter).filter entitiesFilter = es.filter entitiesFilter ∧
    (ls.filter linksFilter).filter linksFilter = ls.filter linksFilter ∧
    (∀ e ∈ es.filter entitiesFilter, entitiesFilter e = true) ∧
    (∀ l ∈ ls.filter linksFilter, linksFilter l = true) :=
  ⟨filter_self_idem entitiesFilter es, filter_self_idem linksFilter ls,
    fun _ he => List.of_mem_filter he, fun _ hl => List.of_mem_filter hl⟩

/-- C9: if `engine.transfer()` throws, the action sends the failure telemetry
event and exits with code 1 without printing a result table; if it returns a
result, the action exits with code 0 after the finish telemetry event and the
Strapi instance destruction, printing the result table when table building
succeeds. -/
theorem importRun_outcomes (transferOutcome : Except Unit TransferResults)
    (tableOk : Bool) :
    (∀ e : Unit, transferOutcome = Except.error e →
      importRun transferOutcome tableOk = ([ImportEvent.telemetryFail], 1) ∧
      ImportEvent.printTable ∉ (importRun transferOutcome tableOk).1) ∧
    (∀ r : TransferResults, transferOutcome = Except.ok r →
      (importRun transferOutcome tableOk).2 = 0 ∧
      ImportEvent.telemetryFinish ∈ (importRun transferOutcome tableOk).1 ∧
      ImportEvent.destroyStrapi ∈ (importRun transferOutcome tableOk).1 ∧
      (tableOk = true →
        (importRun transferOutcome tableOk).1 =
          [ImportEvent.printTable, ImportEvent.telemetryFinish,
            ImportEvent.destroyStrapi])) := by
  constructor
  · rintro e rfl
    simp [importRun]
  · rintro r rfl
    cases tableOk <;> simp [importRun]

/-- Witness for C9 at a concrete throwing transfer and a concrete successful
transfer with table building succeeding. -/
theorem importRun_outcomes_witness :
    importRun (Except.error ()) true = ([ImportEvent.telemetryFail], 1) ∧
    (importRun (Except.ok ({} : TransferResults)) true).1 =
      [ImportEvent.printTable, ImportEvent.telemetryFinish,
        ImportEvent.destroyStrapi] ∧
    (importRun (Except.ok ({} : TransferResults)) true).2 = 0 :=
  ⟨((importRun_outcomes (Except.error ()) true).1 () rfl).1,
    ((importRun_outcomes (Except.ok {}) true).2 {} rfl).2.2.2 rfl,
    ((importRun_outcomes (Except.ok {}) true).2 {} rfl).1⟩

/-- C10: `getLocalFileSourceOptions` is a pure mapping of the command
options: `file.path` is `opts.file`, `compression.enabled` is the boolean
coercion of `opts.decompress`, `encryption.enabled` is the boolean coercion
of `opts.decrypt`, `encryption.key` is `opts.key`; in particular a supplied
key with `opts.decrypt` unset leaves encryption disabled. -/
theorem getLocalFileSourceOptions_mapping (opts : ImportOpts) :
    (getLocalFileSourceOptions opts).file.path = opts.file ∧
    ((getLocalFileSourceOptions opts).compression.enabled = true ↔
      opts.decompress = some true) ∧
    ((getLocalFileSourceOptions opts).encryption.enabled = true ↔
      opts.decrypt = some true) ∧
    (getLocalFileSourceOptions opts).encryption.key = opts.key ∧
    (opts.decrypt = none →
      (getLocalFileSourceOptions opts).encryption.enabled = false) := by
  refine ⟨rfl, ?_, ?_, rfl, fun h => ?_⟩
  · exact jsTruthyBool_eq_true_iff opts.decompress
  · exact jsTruthyBool_eq_true_iff opts.decrypt
  · simp [getLocalFileSourceOptions, jsTruthyBool, h]

/-- Witness for C10: a key supplied without `decrypt` leaves encryption
disabled while the key is still recorded. -/
theorem getLocalFileSourceOptions_mapping_witness :
    (getLocalFileSourceOptions
      ({ file := some "backup.tar", key := some "secret" } : ImportOpts)).encryption.enabled
        = false ∧
    (getLocalFileSourceOptions
      ({ file := some "backup.tar", key := some "secret" } : ImportOpts)).encryption.key
        = some "secret" :=
  ⟨(getLocalFileSourceOptions_mapping
      ({ file := some "backup.tar", key := some "secret" } : ImportOpts)).2.2.2.2 rfl,
    (getLocalFileSourceOptions_mapping
      ({ file := some "backup.tar", key := some "secret" } : ImportOpts)).2.2.2.1⟩
